import Mathlib

/-!
Verification of the training-orchestration core of `ludwig`
(`src/ludwig/models/trainer.py`), via a shallow embedding.

Conventions of the embedding:
* Python `int` fields are `ℤ`; Python `float` values are `ℚ`
  (the code performs only field accesses, comparisons, `+`, `*`, `min`
  on them, all exact);
* Python dictionaries keyed by strings are association lists with
  first-match lookup (all dictionaries built by the code have distinct
  keys);
* a Python function that can raise returns `Option`/`Except`; `none` /
  `.error` is the uncaught-exception outcome;
* the metric-improvement registry `get_improved_fun` and the initial
  worst-value registry `get_initial_validation_value` live in
  `ludwig.modules.metric_modules` (outside the given sources) and are
  passed as explicit function parameters `impFun` / `getInitial`;
* I/O side effects (checkpoint writes, tensorboard, logging) are not
  state of the embedding unless a claim is about them, in which case
  they are modelled as explicit effect values.
-/

namespace Ludwig

/-- Constant `COMBINED` from `ludwig.constants`. -/
def COMBINED : String := "combined"

/-- Constant `LOSS` from `ludwig.constants`. -/
def LOSS : String := "loss"

/-- Constant `TRAINING` from `ludwig.constants`. -/
def tTRAINING : String := "training"

/-- Constant `VALIDATION` from `ludwig.constants`. -/
def tVALIDATION : String := "validation"

/-- Constant `TEST` from `ludwig.constants`. -/
def tTEST : String := "test"

/-- A metric log: output-feature name → metric name → ordered sequence of
per-epoch scalar values (`train_metrics` / `vali_metrics` / `test_metrics`
in `ProgressTracker`). -/
def MetricsLog : Type := List (String × List (String × List ℚ))

instance : DecidableEq MetricsLog := by
  unfold MetricsLog
  infer_instance

/-- Dictionary indexing `d[k]` on a string-keyed association list
(`none` models a Python `KeyError`). -/
def dictGet {α : Type} (d : List (String × α)) (k : String) : Option α :=
  (d.find? (fun p => p.1 = k)).map (fun p => p.2)

/-- `metrics_log[feat][metric][-1]`: the most recent recorded value of one
metric; `none` models the `KeyError`/`IndexError` exception paths. -/
def lastMetric (log : MetricsLog) (feat metric : String) : Option ℚ :=
  match dictGet log feat with
  | none => none
  | some ms =>
    match dictGet ms metric with
    | none => none
    | some vs => vs.getLast?

/-- `metrics_log[feat][metric].append(v)` as performed by
`Trainer.append_metrics` during evaluation (keys are pre-created at
training start, so the update is in place). -/
def appendMetric (log : MetricsLog) (feat metric : String) (v : ℚ) : MetricsLog :=
  log.map (fun fp =>
    if fp.1 = feat then
      (fp.1, fp.2.map (fun mp => if mp.1 = metric then (mp.1, mp.2 ++ [v]) else mp))
    else fp)

/-- The `ProgressTracker` class (trainer.py lines 1405-1448): the sole
mutable cross-epoch training state.  Field names and order follow the
`__init__` assignments. -/
structure ProgressTracker where
  batch_size : ℚ
  epoch : ℤ
  steps : ℤ
  last_improvement_epoch : ℤ
  last_improvement : ℤ
  last_learning_rate_reduction_epoch : ℤ
  last_learning_rate_reduction : ℤ
  last_increase_batch_size_epoch : ℤ
  last_increase_batch_size : ℤ
  learning_rate : ℚ
  best_eval_metric : ℚ
  best_reduce_learning_rate_eval_metric : ℚ
  last_reduce_learning_rate_eval_metric_improvement : ℤ
  best_increase_batch_size_eval_metric : ℚ
  last_increase_batch_size_eval_metric_improvement : ℤ
  num_reductions_learning_rate : ℤ
  num_increases_batch_size : ℤ
  train_metrics : MetricsLog
  vali_metrics : MetricsLog
  test_metrics : MetricsLog
deriving DecidableEq

/-- A value of the persisted progress-tracker snapshot.
Modelled from the spec: the snapshot written by `save_json` /
read by `load_json` (helpers in `ludwig.utils.data_utils`, outside the
given sources) is "a flat key-value document whose values are either
plain scalars or nested mappings of target→metric→ordered scalar
sequence". -/
inductive TrackerValue where
  | intV (n : ℤ)
  | ratV (q : ℚ)
  | logV (m : MetricsLog)
deriving DecidableEq

/-- The flat key-value snapshot document. -/
def TrackerDoc : Type := List (String × TrackerValue)

/-- `ProgressTracker.save(filepath)`: `save_json(filepath, self.__dict__)`.
The document holds every attribute of the instance, keyed by name. -/
def ProgressTracker.save (t : ProgressTracker) : TrackerDoc :=
  [("batch_size", .ratV t.batch_size),
   ("epoch", .intV t.epoch),
   ("steps", .intV t.steps),
   ("last_improvement_epoch", .intV t.last_improvement_epoch),
   ("last_improvement", .intV t.last_improvement),
   ("last_learning_rate_reduction_epoch", .intV t.last_learning_rate_reduction_epoch),
   ("last_learning_rate_reduction", .intV t.last_learning_rate_reduction),
   ("last_increase_batch_size_epoch", .intV t.last_increase_batch_size_epoch),
   ("last_increase_batch_size", .intV t.last_increase_batch_size),
   ("learning_rate", .ratV t.learning_rate),
   ("best_eval_metric", .ratV t.best_eval_metric),
   ("best_reduce_learning_rate_eval_metric", .ratV t.best_reduce_learning_rate_eval_metric),
   ("last_reduce_learning_rate_eval_metric_improvement",
      .intV t.last_reduce_learning_rate_eval_metric_improvement),
   ("best_increase_batch_size_eval_metric", .ratV t.best_increase_batch_size_eval_metric),
   ("last_increase_batch_size_eval_metric_improvement",
      .intV t.last_increase_batch_size_eval_metric_improvement),
   ("num_reductions_learning_rate", .intV t.num_reductions_learning_rate),
   ("num_increases_batch_size", .intV t.num_increases_batch_size),
   ("train_metrics", .logV t.train_metrics),
   ("vali_metrics", .logV t.vali_metrics),
   ("test_metrics", .logV t.test_metrics)]

/-- Read an integer-valued key of a snapshot document. -/
def docInt (d : TrackerDoc) (k : String) : Option ℤ :=
  match dictGet d k with
  | some (.intV n) => some n
  | _ => none

/-- Read a scalar-valued key of a snapshot document. -/
def docRat (d : TrackerDoc) (k : String) : Option ℚ :=
  match dictGet d k with
  | some (.ratV q) => some q
  | _ => none

/-- Read a metric-log-valued key of a snapshot document. -/
def docLog (d : TrackerDoc) (k : String) : Option MetricsLog :=
  match dictGet d k with
  | some (.logV m) => some m
  | _ => none

/-- `ProgressTracker.load(filepath)`:
`ProgressTracker(**load_json(filepath))` — each keyword argument is
looked up by name and the instance is rebuilt (`none` models the
`TypeError` raised when a required key is missing or ill-typed). -/
def ProgressTracker.load (d : TrackerDoc) : Option ProgressTracker :=
  match docRat d "batch_size", docInt d "epoch", docInt d "steps",
        docInt d "last_improvement_epoch", docInt d "last_improvement" with
  | some batch_size, some epoch, some steps,
    some last_improvement_epoch, some last_improvement =>
    match docInt d "last_learning_rate_reduction_epoch", docInt d "last_learning_rate_reduction",
          docInt d "last_increase_batch_size_epoch", docInt d "last_increase_batch_size",
          docRat d "learning_rate" with
    | some last_learning_rate_reduction_epoch, some last_learning_rate_reduction,
      some last_increase_batch_size_epoch, some last_increase_batch_size,
      some learning_rate =>
      match docRat d "best_eval_metric", docRat d "best_reduce_learning_rate_eval_metric",
            docInt d "last_reduce_learning_rate_eval_metric_improvement",
            docRat d "best_increase_batch_size_eval_metric",
            docInt d "last_increase_batch_size_eval_metric_improvement" with
      | some best_eval_metric, some best_reduce_learning_rate_eval_metric,
        some last_reduce_learning_rate_eval_metric_improvement,
        some best_increase_batch_size_eval_metric,
        some last_increase_batch_size_eval_metric_improvement =>
        match docInt d "num_reductions_learning_rate", docInt d "num_increases_batch_size",
              docLog d "train_metrics", docLog d "vali_metrics", docLog d "test_metrics" with
        | some num_reductions_learning_rate, some num_increases_batch_size,
          some train_metrics, some vali_metrics, some test_metrics =>
          some { batch_size := batch_size
                 epoch := epoch
                 steps := steps
                 last_improvement_epoch := last_improvement_epoch
                 last_improvement := last_improvement
                 last_learning_rate_reduction_epoch := last_learning_rate_reduction_epoch
                 last_learning_rate_reduction := last_learning_rate_reduction
                 last_increase_batch_size_epoch := last_increase_batch_size_epoch
                 last_increase_batch_size := last_increase_batch_size
                 learning_rate := learning_rate
                 best_eval_metric := best_eval_metric
                 best_reduce_learning_rate_eval_metric := best_reduce_learning_rate_eval_metric
                 last_reduce_learning_rate_eval_metric_improvement :=
                   last_reduce_learning_rate_eval_metric_improvement
                 best_increase_batch_size_eval_metric := best_increase_batch_size_eval_metric
                 last_increase_batch_size_eval_metric_improvement :=
                   last_increase_batch_size_eval_metric_improvement
                 num_reductions_learning_rate := num_reductions_learning_rate
                 num_increases_batch_size := num_increases_batch_size
                 train_metrics := train_metrics
                 vali_metrics := vali_metrics
                 test_metrics := test_metrics }
        | _, _, _, _, _ => none
      | _, _, _, _, _ => none
    | _, _, _, _, _ => none
  | _, _, _, _, _ => none

/-- The eval-split selection shared by both plateau controllers
(trainer.py lines 1264-1269 and 1326-1331): `training` picks the train
log, `validation` the validation log, anything else the test log. -/
def selectSplitMetrics (pt : ProgressTracker) (split : String) : MetricsLog :=
  if split = tTRAINING then pt.train_metrics
  else if split = tVALIDATION then pt.vali_metrics
  else pt.test_metrics

/-- `Trainer.reduce_learning_rate` (trainer.py lines 1252-1308).
`impFun` stands for the external registry `get_improved_fun`, applied by
the source to the metric name.  `none` models the uncaught exception when
the metric log lookup fails.  Coordinator logging is stateless and
omitted. -/
def reduce_learning_rate (impFun : String → ℚ → ℚ → Bool) (pt : ProgressTracker)
    (validation_output_feature_name : String)
    (reduce_learning_rate_on_plateau : ℚ)
    (reduce_learning_rate_on_plateau_patience : ℤ)
    (reduce_learning_rate_on_plateau_rate : ℚ)
    (reduce_learning_rate_eval_metric reduce_learning_rate_eval_split : String) :
    Option ProgressTracker :=
  if ¬((pt.num_reductions_learning_rate : ℚ) ≥ reduce_learning_rate_on_plateau) then
    match lastMetric (selectSplitMetrics pt reduce_learning_rate_eval_split)
        validation_output_feature_name reduce_learning_rate_eval_metric with
    | none => none
    | some last_metric_value =>
      if impFun reduce_learning_rate_eval_metric last_metric_value
          pt.best_reduce_learning_rate_eval_metric then
        some { pt with
                 best_reduce_learning_rate_eval_metric := last_metric_value
                 last_reduce_learning_rate_eval_metric_improvement := 0 }
      else
        let pt2 := { pt with
                       last_reduce_learning_rate_eval_metric_improvement :=
                         pt.last_reduce_learning_rate_eval_metric_improvement + 1 }
        if pt2.last_learning_rate_reduction ≥ reduce_learning_rate_on_plateau_patience ∧
            pt2.last_reduce_learning_rate_eval_metric_improvement ≥
              reduce_learning_rate_on_plateau_patience then
          some { pt2 with
                   learning_rate := pt2.learning_rate * reduce_learning_rate_on_plateau_rate
                   last_learning_rate_reduction_epoch := pt2.epoch
                   last_learning_rate_reduction := 0
                   num_reductions_learning_rate := pt2.num_reductions_learning_rate + 1 }
        else
          some pt2
  else
    some pt

/-- `Trainer.increase_batch_size` (trainer.py lines 1310-1381), same
conventions as `reduce_learning_rate`. -/
def increase_batch_size (impFun : String → ℚ → ℚ → Bool) (pt : ProgressTracker)
    (validation_output_feature_name : String)
    (increase_batch_size_on_plateau increase_batch_size_on_plateau_patience : ℤ)
    (increase_batch_size_on_plateau_rate : ℚ)
    (increase_batch_size_on_plateau_max : ℤ)
    (increase_batch_size_eval_metric increase_batch_size_eval_split : String) :
    Option ProgressTracker :=
  if ¬(pt.num_increases_batch_size ≥ increase_batch_size_on_plateau) ∧
      ¬(pt.batch_size = (increase_batch_size_on_plateau_max : ℚ)) then
    match lastMetric (selectSplitMetrics pt increase_batch_size_eval_split)
        validation_output_feature_name increase_batch_size_eval_metric with
    | none => none
    | some last_metric_value =>
      if impFun increase_batch_size_eval_metric last_metric_value
          pt.best_increase_batch_size_eval_metric then
        some { pt with
                 best_increase_batch_size_eval_metric := last_metric_value
                 last_increase_batch_size_eval_metric_improvement := 0 }
      else
        let pt2 := { pt with
                       last_increase_batch_size_eval_metric_improvement :=
                         pt.last_increase_batch_size_eval_metric_improvement + 1 }
        if pt2.last_increase_batch_size ≥ increase_batch_size_on_plateau_patience ∧
            pt2.last_increase_batch_size_eval_metric_improvement ≥
              increase_batch_size_on_plateau_patience then
          some { pt2 with
                   batch_size :=
                     min (increase_batch_size_on_plateau_rate * pt2.batch_size)
                       (increase_batch_size_on_plateau_max : ℚ)
                   last_increase_batch_size_epoch := pt2.epoch
                   last_increase_batch_size := 0
                   num_increases_batch_size := pt2.num_increases_batch_size + 1 }
        else
          some pt2
  else
    some pt

/-- The improvement bookkeeping at the top of
`Trainer.check_progress_on_validation` (trainer.py lines 1109-1120):
when the most recent validation value improves on the best-seen value,
record the improvement epoch and the new best (the model-weights write
on improvement is coordinator-only file I/O and does not touch the
tracker). -/
def improveStage (impFun : String → ℚ → ℚ → Bool) (pt : ProgressTracker)
    (validation_metric : String) (lastVal : ℚ) : ProgressTracker :=
  if impFun validation_metric lastVal pt.best_eval_metric then
    { pt with last_improvement_epoch := pt.epoch, best_eval_metric := lastVal }
  else pt

/-- Line 1122: `progress_tracker.last_improvement =
progress_tracker.epoch - progress_tracker.last_improvement_epoch`. -/
def recomputeLastImprovement (pt : ProgressTracker) : ProgressTracker :=
  { pt with last_improvement := pt.epoch - pt.last_improvement_epoch }

/-- The learning-rate plateau block of `check_progress_on_validation`
(trainer.py lines 1129-1153): guarded by
`reduce_learning_rate_on_plateau > 0`, runs `reduce_learning_rate` and
recomputes `last_learning_rate_reduction`. -/
def reduceStage (impFun : String → ℚ → ℚ → Bool) (pt : ProgressTracker)
    (validation_output_feature_name : String)
    (reduce_learning_rate_on_plateau : ℚ)
    (reduce_learning_rate_on_plateau_patience : ℤ)
    (reduce_learning_rate_on_plateau_rate : ℚ)
    (reduce_learning_rate_eval_metric reduce_learning_rate_eval_split : String) :
    Option ProgressTracker :=
  if reduce_learning_rate_on_plateau > 0 then
    match reduce_learning_rate impFun pt validation_output_feature_name
        reduce_learning_rate_on_plateau reduce_learning_rate_on_plateau_patience
        reduce_learning_rate_on_plateau_rate reduce_learning_rate_eval_metric
        reduce_learning_rate_eval_split with
    | none => none
    | some q =>
      some { q with
               last_learning_rate_reduction :=
                 q.epoch - q.last_learning_rate_reduction_epoch }
  else some pt

/-- The batch-size plateau block of `check_progress_on_validation`
(trainer.py lines 1155-1182): guarded by
`increase_batch_size_on_plateau > 0`, runs `increase_batch_size` and
recomputes `last_increase_batch_size`. -/
def increaseStage (impFun : String → ℚ → ℚ → Bool) (pt : ProgressTracker)
    (validation_output_feature_name : String)
    (increase_batch_size_on_plateau increase_batch_size_on_plateau_patience : ℤ)
    (increase_batch_size_on_plateau_rate : ℚ)
    (increase_batch_size_on_plateau_max : ℤ)
    (increase_batch_size_eval_metric increase_batch_size_eval_split : String) :
    Option ProgressTracker :=
  if increase_batch_size_on_plateau > 0 then
    match increase_batch_size impFun pt validation_output_feature_name
        increase_batch_size_on_plateau increase_batch_size_on_plateau_patience
        increase_batch_size_on_plateau_rate increase_batch_size_on_plateau_max
        increase_batch_size_eval_metric increase_batch_size_eval_split with
    | none => none
    | some q =>
      some { q with
               last_increase_batch_size :=
                 q.epoch - q.last_increase_batch_size_epoch }
  else some pt

/-- `Trainer.check_progress_on_validation` (trainer.py lines 1086-1194).
Returns the updated tracker and `should_break` (line 1185:
`0 < early_stop <= progress_tracker.last_improvement`).  Log statements
are stateless and omitted; `none` models the uncaught exception when a
metric log lookup fails. -/
def check_progress_on_validation (impFun : String → ℚ → ℚ → Bool)
    (pt : ProgressTracker)
    (validation_output_feature_name validation_metric : String)
    (reduce_learning_rate_on_plateau : ℚ)
    (reduce_learning_rate_on_plateau_patience : ℤ)
    (reduce_learning_rate_on_plateau_rate : ℚ)
    (reduce_learning_rate_eval_metric reduce_learning_rate_eval_split : String)
    (increase_batch_size_on_plateau increase_batch_size_on_plateau_patience : ℤ)
    (increase_batch_size_on_plateau_rate : ℚ)
    (increase_batch_size_on_plateau_max : ℤ)
    (increase_batch_size_eval_metric increase_batch_size_eval_split : String)
    (early_stop : ℤ) : Option (ProgressTracker × Bool) :=
  match lastMetric pt.vali_metrics validation_output_feature_name validation_metric with
  | none => none
  | some lastVal =>
    match reduceStage impFun
        (recomputeLastImprovement (improveStage impFun pt validation_metric lastVal))
        validation_output_feature_name reduce_learning_rate_on_plateau
        reduce_learning_rate_on_plateau_patience reduce_learning_rate_on_plateau_rate
        reduce_learning_rate_eval_metric reduce_learning_rate_eval_split with
    | none => none
    | some pt3 =>
      match increaseStage impFun pt3 validation_output_feature_name
          increase_batch_size_on_plateau increase_batch_size_on_plateau_patience
          increase_batch_size_on_plateau_rate increase_batch_size_on_plateau_max
          increase_batch_size_eval_metric increase_batch_size_eval_split with
      | none => none
      | some pt4 =>
        some (pt4, decide (0 < early_stop ∧ early_stop ≤ pt4.last_improvement))

/-- The fresh `ProgressTracker` built by `Trainer.train` when not resuming
(trainer.py lines 715-738).  `getInitial` stands for the external registry
`get_initial_validation_value` (metric name → worst possible value). -/
def init_progress_tracker (getInitial : String → ℚ) (batch_size base_learning_rate : ℚ)
    (validation_metric reduce_learning_rate_eval_metric increase_batch_size_eval_metric : String)
    (train_metrics vali_metrics test_metrics : MetricsLog) : ProgressTracker :=
  { batch_size := batch_size
    epoch := 0
    steps := 0
    last_improvement_epoch := 0
    last_improvement := 0
    last_learning_rate_reduction_epoch := 0
    last_learning_rate_reduction := 0
    last_increase_batch_size_epoch := 0
    last_increase_batch_size := 0
    learning_rate := base_learning_rate
    best_eval_metric := getInitial validation_metric
    best_reduce_learning_rate_eval_metric := getInitial reduce_learning_rate_eval_metric
    last_reduce_learning_rate_eval_metric_improvement := 0
    best_increase_batch_size_eval_metric := getInitial increase_batch_size_eval_metric
    last_increase_batch_size_eval_metric_improvement := 0
    num_reductions_learning_rate := 0
    num_increases_batch_size := 0
    train_metrics := train_metrics
    vali_metrics := vali_metrics
    test_metrics := test_metrics }

/-- One iteration of the epoch loop of `Trainer.train` (lines 756-901) as
it acts on the tracker when a validation set is present, restricted to the
tracker-relevant operations: the epoch counter increment (line 790), the
evaluation appending the epoch's validation metric value to the log
(lines 815-833, here a single watched (feature, metric) entry), then
`check_progress_on_validation` (lines 866-888). -/
def valTrainStep (impFun : String → ℚ → ℚ → Bool) (pt : ProgressTracker)
    (validation_output_feature_name validation_metric : String) (metricVal : ℚ)
    (reduce_learning_rate_on_plateau : ℚ)
    (reduce_learning_rate_on_plateau_patience : ℤ)
    (reduce_learning_rate_on_plateau_rate : ℚ)
    (reduce_learning_rate_eval_metric reduce_learning_rate_eval_split : String)
    (increase_batch_size_on_plateau increase_batch_size_on_plateau_patience : ℤ)
    (increase_batch_size_on_plateau_rate : ℚ)
    (increase_batch_size_on_plateau_max : ℤ)
    (increase_batch_size_eval_metric increase_batch_size_eval_split : String)
    (early_stop : ℤ) : Option (ProgressTracker × Bool) :=
  let pt := { pt with
                epoch := pt.epoch + 1
                vali_metrics :=
                  appendMetric pt.vali_metrics validation_output_feature_name
                    validation_metric metricVal }
  check_progress_on_validation impFun pt validation_output_feature_name validation_metric
    reduce_learning_rate_on_plateau reduce_learning_rate_on_plateau_patience
    reduce_learning_rate_on_plateau_rate reduce_learning_rate_eval_metric
    reduce_learning_rate_eval_split increase_batch_size_on_plateau
    increase_batch_size_on_plateau_patience increase_batch_size_on_plateau_rate
    increase_batch_size_on_plateau_max increase_batch_size_eval_metric
    increase_batch_size_eval_split early_stop

/-- The epoch loop of `Trainer.train` with a validation set: one list
entry is one epoch's validation metric value (the epoch budget `epochs`
is the list length); the loop stops early when
`check_progress_on_validation` signals `should_break` (line 887-888). -/
def trainValLoop (impFun : String → ℚ → ℚ → Bool)
    (validation_output_feature_name validation_metric : String)
    (reduce_learning_rate_on_plateau : ℚ)
    (reduce_learning_rate_on_plateau_patience : ℤ)
    (reduce_learning_rate_on_plateau_rate : ℚ)
    (reduce_learning_rate_eval_metric reduce_learning_rate_eval_split : String)
    (increase_batch_size_on_plateau increase_batch_size_on_plateau_patience : ℤ)
    (increase_batch_size_on_plateau_rate : ℚ)
    (increase_batch_size_on_plateau_max : ℤ)
    (increase_batch_size_eval_metric increase_batch_size_eval_split : String)
    (early_stop : ℤ) : List ℚ → ProgressTracker → Option ProgressTracker
  | [], pt => some pt
  | v :: rest, pt =>
    match valTrainStep impFun pt validation_output_feature_name validation_metric v
        reduce_learning_rate_on_plateau reduce_learning_rate_on_plateau_patience
        reduce_learning_rate_on_plateau_rate reduce_learning_rate_eval_metric
        reduce_learning_rate_eval_split increase_batch_size_on_plateau
        increase_batch_size_on_plateau_patience increase_batch_size_on_plateau_rate
        increase_batch_size_on_plateau_max increase_batch_size_eval_metric
        increase_batch_size_eval_split early_stop with
    | none => none
    | some (pt', brk) =>
      if brk then some pt'
      else
        trainValLoop impFun validation_output_feature_name validation_metric
          reduce_learning_rate_on_plateau reduce_learning_rate_on_plateau_patience
          reduce_learning_rate_on_plateau_rate reduce_learning_rate_eval_metric
          reduce_learning_rate_eval_split increase_batch_size_on_plateau
          increase_batch_size_on_plateau_patience increase_batch_size_on_plateau_rate
          increase_batch_size_on_plateau_max increase_batch_size_eval_metric
          increase_batch_size_eval_split early_stop rest pt'

/-- One iteration of the epoch loop of `Trainer.train` when NO validation
set is present, as it acts on the tracker: the step loop advances `steps`
once per batch (line 995) and the epoch counter is incremented
(line 790); `check_progress_on_validation` is NOT called (the `else`
branch at lines 889-892 only writes model weights), so no other tracker
field changes. -/
def trainEpochNoValidation (steps_per_epoch : ℤ) (pt : ProgressTracker) : ProgressTracker :=
  { pt with steps := pt.steps + steps_per_epoch, epoch := pt.epoch + 1 }

/-- One per-epoch call of the learning-rate plateau controller, as the
training loop performs it: the epoch counter advances and the epoch's
metric value `m` is appended to the train split log (the controller's
default `reduce_learning_rate_eval_split` is `training`), then
`reduce_learning_rate` runs and `last_learning_rate_reduction` is
recomputed exactly as at trainer.py lines 1130-1142. -/
def reduceEpochStep (impFun : String → ℚ → ℚ → Bool)
    (feature metric split : String) (plateau : ℚ) (patience : ℤ) (rate : ℚ) (m : ℚ)
    (pt : ProgressTracker) : Option ProgressTracker :=
  let pt := { pt with
                epoch := pt.epoch + 1
                train_metrics := appendMetric pt.train_metrics feature metric m }
  match reduce_learning_rate impFun pt feature plateau patience rate metric split with
  | none => none
  | some q =>
    some { q with
             last_learning_rate_reduction := q.epoch - q.last_learning_rate_reduction_epoch }

/-- `n` successive per-epoch calls of the learning-rate plateau
controller on a constant metric value `m` (one call per epoch). -/
def reduceEpochRun (impFun : String → ℚ → ℚ → Bool)
    (feature metric split : String) (plateau : ℚ) (patience : ℤ) (rate : ℚ) (m : ℚ) :
    ℕ → ProgressTracker → Option ProgressTracker
  | 0, pt => some pt
  | n + 1, pt =>
    match reduceEpochRun impFun feature metric split plateau patience rate m n pt with
    | none => none
    | some q => reduceEpochStep impFun feature metric split plateau patience rate m q

/-- The tracker state after `k` no-improvement epochs of the
learning-rate plateau run started from the fresh tracker: epoch and both
controller counters have advanced to `k`, the train log holds the `k`
recorded values, and nothing else has changed. -/
def reduceScenarioState (lr0 b m : ℚ) (k : ℕ) : ProgressTracker :=
  { batch_size := 128
    epoch := (k : ℤ)
    steps := 0
    last_improvement_epoch := 0
    last_improvement := 0
    last_learning_rate_reduction_epoch := 0
    last_learning_rate_reduction := (k : ℤ)
    last_increase_batch_size_epoch := 0
    last_increase_batch_size := 0
    learning_rate := lr0
    best_eval_metric := b
    best_reduce_learning_rate_eval_metric := b
    last_reduce_learning_rate_eval_metric_improvement := (k : ℤ)
    best_increase_batch_size_eval_metric := b
    last_increase_batch_size_eval_metric_improvement := 0
    num_reductions_learning_rate := 0
    num_increases_batch_size := 0
    train_metrics := [(COMBINED, [(LOSS, List.replicate k m)])]
    vali_metrics := [(COMBINED, [(LOSS, [])])]
    test_metrics := [(COMBINED, [(LOSS, [])])] }

/-- Outcome of one `train_for_tuning` probe inside `tune_batch_size`:
the trial steps succeed, raise the `RuntimeError` that PyTorch emits on
CUDA out-of-memory (caught by the tuner), or raise some other exception
(not caught). -/
inductive TrialResult where
  | success
  | oomFailure
  | otherFailure
deriving DecidableEq

/-- The trainer's three side-effect flags that `tune_batch_size`
temporarily forces to `True` (trainer.py lines 559-565) and restores in
its `finally` block (lines 609-614). -/
structure SaveFlags where
  skip_save_model : Bool
  skip_save_progress : Bool
  skip_save_log : Bool
deriving DecidableEq

/-- Result of `tune_batch_size`: a returned batch size, or an uncaught
exception (anything other than `RuntimeError`) escaping a trial step. -/
inductive TuneOutcome where
  | result (batch_size : ℕ)
  | uncaught
deriving DecidableEq

/-- The `while halving_count < halving_limit` loop of
`Trainer.tune_batch_size` (trainer.py lines 567-608), parameterised by
the trial outcome function.  Batch sizes are naturals; the Python test
`high - low <= 1` on ints coincides with the truncated-subtraction test
used here because both say `high ≤ low + 1`, and `(high + low) // 2` is
natural floor division.  `fuel` bounds the iteration count; every
iteration increments either `count` (success, capped by `max_trials`) or
`halving_count` (capped by `halving_limit`), so
`max_trials + halving_limit + 1` steps of fuel are never exhausted. -/
def tuneLoop (trial : ℕ → TrialResult) (dsLen maxTrials halvingLimit : ℕ) :
    ℕ → ℕ → Option ℕ → ℕ → ℕ → TuneOutcome
  | 0, batch_size, _, _, _ => .result batch_size
  | fuel + 1, batch_size, high, count, halving_count =>
    if halving_count < halvingLimit then
      let low := batch_size
      let prev_batch_size := batch_size
      match trial batch_size with
      | .otherFailure => .uncaught
      | .success =>
        let count := count + 1
        if maxTrials ≤ count then .result batch_size
        else
          match high with
          | some h =>
            if h - low ≤ 1 then .result batch_size
            else
              let midval := (h + low) / 2
              if midval = prev_batch_size then .result midval
              else
                let bs :=
                  if midval < dsLen then midval else min midval dsLen
                if bs = prev_batch_size then .result bs
                else tuneLoop trial dsLen maxTrials halvingLimit fuel bs high count
                       halving_count
          | none =>
            let doubled := batch_size * 2
            if doubled = prev_batch_size then .result doubled
            else
              let bs :=
                if doubled < dsLen then doubled else min doubled dsLen
              if bs = prev_batch_size then .result bs
              else tuneLoop trial dsLen maxTrials halvingLimit fuel bs none count
                     halving_count
      | .oomFailure =>
        let high := batch_size
        let halving_count := halving_count + 1
        let midval := (high + low) / 2
        if high - low ≤ 1 then .result midval
        else
          let bs :=
            if midval < dsLen then midval else min midval dsLen
          if bs = prev_batch_size then .result bs
          else tuneLoop trial dsLen maxTrials halvingLimit fuel bs (some high) count
                 halving_count
    else .result batch_size

/-- `Trainer.tune_batch_size` (trainer.py lines 544-616): saves the three
side-effect flags, forces them to `True` for the search, runs the
doubling/bisection loop from the placeholder size 128, and restores the
saved flags in a `finally` block on every exit path (normal return,
budget exhaustion, or an exception escaping a trial).  Returns the
outcome together with the trainer's flags after the call. -/
def tune_batch_size (trial : ℕ → TrialResult) (dsLen maxTrials halvingLimit : ℕ)
    (flags : SaveFlags) : TuneOutcome × SaveFlags :=
  let skip_save_model := flags.skip_save_model
  let skip_save_progress := flags.skip_save_progress
  let skip_save_log := flags.skip_save_log
  let _duringSearch : SaveFlags :=
    { skip_save_model := true, skip_save_progress := true, skip_save_log := true }
  let outcome :=
    tuneLoop trial dsLen maxTrials halvingLimit (maxTrials + halvingLimit + 1) 128 none 0 0
  (outcome,
   { skip_save_model := skip_save_model
     skip_save_progress := skip_save_progress
     skip_save_log := skip_save_log })

/-- `Trainer.get_metrics_names` (trainer.py lines 1235-1243): feature
name → list of its metric names, with the synthetic `combined` target
mapped to `[loss]`.  A feature whose metric list is empty gets no key
(the source only creates the key inside `for metric in
output_feature.metric_functions`).  Feature names are distinct and none
is literally `combined`, so first-match association lookup agrees with
the Python dictionary. -/
def get_metrics_names (output_features : List (String × List String)) :
    List (String × List String) :=
  (output_features.filter (fun f => ¬f.2.isEmpty)) ++ [(COMBINED, [LOSS])]

/-- The `validation_field` resolution of `Trainer.train`
(trainer.py lines 636-659): `combined` is always accepted, and is
replaced by the single output feature when the requested metric is not
`loss`, there is exactly one output feature and the metric is valid for
it; any other field must name an output feature, else a `ValueError`
naming the field and the allowed values is raised. -/
def resolveValidationField (output_features : List (String × List String))
    (validation_field validation_metric : String) : Except String String :=
  let metrics_names := get_metrics_names output_features
  if validation_field = COMBINED then
    if validation_metric ≠ LOSS ∧ output_features.length = 1 then
      match output_features with
      | [] => Except.ok COMBINED
      | (only_of, _) :: _ =>
        match dictGet metrics_names only_of with
        | none => Except.error ("KeyError: " ++ only_of)
        | some ms =>
          if validation_metric ∈ ms then Except.ok only_of
          else Except.ok COMBINED
    else Except.ok COMBINED
  else
    if output_features.any (fun f => f.1 = validation_field) then
      Except.ok validation_field
    else
      Except.error ("The specified validation_field " ++ validation_field ++
        (" is not valid. Available ones are: " ++
        String.intercalate ", " (output_features.map (fun f => f.1) ++ [COMBINED])))

/-- The full validation-configuration check of `Trainer.train`
(trainer.py lines 636-669): field resolution followed by the
`validation_metric in metrics_names[self.validation_field]` check, whose
failure raises a `ValueError` naming the metric and the metrics
available for the resolved field. -/
def validateValidationConfig (output_features : List (String × List String))
    (validation_field validation_metric : String) : Except String String :=
  match resolveValidationField output_features validation_field validation_metric with
  | Except.error e => Except.error e
  | Except.ok resolved =>
    match dictGet (get_metrics_names output_features) resolved with
    | none => Except.error ("KeyError: " ++ resolved)
    | some ms =>
      if validation_metric ∈ ms then Except.ok resolved
      else
        Except.error ("The specified metric " ++ validation_metric ++
          (" is not valid. Available metrics for " ++ resolved ++
          (" output feature are: " ++ String.intercalate ", " ms)))

/-- A training side effect of `Trainer.train`, in program order. -/
inductive TrainEffect where
  | makeSaveDirectories
  | checkpointManagerSetup
  | epochLoopRun
deriving DecidableEq

/-- The prologue of `Trainer.train` (trainer.py lines 618-756) as it
relates to configuration errors: the `validation_field` /
`validation_metric` checks (lines 636-669) run before any file-system or
training side effect; only when they pass does the function create save
directories (line 676), set up checkpointing (lines 690-695) and enter
the epoch loop.  On success it returns the resolved field and the
ordered side-effect trace; on failure the `ValueError` propagates with
no side effect performed. -/
def trainValidationGate (output_features : List (String × List String))
    (validation_field validation_metric : String) :
    Except String (String × List TrainEffect) :=
  match validateValidationConfig output_features validation_field validation_metric with
  | Except.error e => Except.error e
  | Except.ok resolved =>
    Except.ok (resolved,
      [TrainEffect.makeSaveDirectories, TrainEffect.checkpointManagerSetup,
       TrainEffect.epochLoopRun])

/-- The configured learning rate after schema validation
(`NumericOrStringOptionsField(min=0.0, max=1.0, options=["auto"])`,
trainer.py lines 126-128): a number, or the string sentinel `auto`. -/
inductive NumericOrAuto where
  | num (q : ℚ)
  | auto
deriving DecidableEq

/-- Python `float(config.learning_rate)` (trainer.py line 281): a numeric
value converts exactly; the sentinel string `auto` (the only string the
schema admits) raises `ValueError`. -/
def floatOfLearningRate : NumericOrAuto → Except Unit ℚ
  | .num q => Except.ok q
  | .auto => Except.error ()

/-- The `try/except ValueError` of `Trainer.__init__` (trainer.py lines
280-285): the exception from `float` is caught and the base learning
rate silently falls back to 0.001, so construction never fails on a
non-numeric learning rate. -/
def trainerBaseLearningRate (learning_rate : NumericOrAuto) : ℚ :=
  match floatOfLearningRate learning_rate with
  | Except.ok q => q
  | Except.error _ => 1 / 1000

/-- Modelled from the spec: the improvement predicate that
`get_improved_fun` (in `ludwig.modules.metric_modules`, outside the given
sources) returns for loss-like metrics — "lower-is-better for loss-like
metrics" (spec §4.3), as a strict comparison of the new value against the
best-seen value. -/
def impLt : String → ℚ → ℚ → Bool := fun _ a b => decide (a < b)

/-- A metric log with one watched entry and no recorded epoch. -/
def exEmptyLog : MetricsLog := [(COMBINED, [(LOSS, [])])]

/-- A metric log with one watched entry and one recorded value. -/
def exValiLog : MetricsLog := [(COMBINED, [(LOSS, [1])])]

/-- A concrete tracker after one epoch whose single validation loss value
(1) is NOT an improvement over the best-seen value (0). -/
def ptEx : ProgressTracker :=
  { batch_size := 128
    epoch := 1
    steps := 0
    last_improvement_epoch := 0
    last_improvement := 0
    last_learning_rate_reduction_epoch := 0
    last_learning_rate_reduction := 0
    last_increase_batch_size_epoch := 0
    last_increase_batch_size := 0
    learning_rate := 1
    best_eval_metric := 0
    best_reduce_learning_rate_eval_metric := 0
    last_reduce_learning_rate_eval_metric_improvement := 0
    best_increase_batch_size_eval_metric := 0
    last_increase_batch_size_eval_metric_improvement := 0
    num_reductions_learning_rate := 0
    num_increases_batch_size := 0
    train_metrics := exValiLog
    vali_metrics := exValiLog
    test_metrics := exValiLog }

/-- `ptEx` after `check_progress_on_validation` recomputes
`last_improvement` (no improvement, so only that field changes). -/
def ptEx' : ProgressTracker := { ptEx with last_improvement := 1 }

/-- The fresh tracker of the C9 witness scenario: initial best values are
the worst-case 10, base learning rate 1/100, empty logs. -/
def ptFresh : ProgressTracker :=
  init_progress_tracker (fun _ => 10) 128 1 LOSS LOSS LOSS
    exEmptyLog exEmptyLog exEmptyLog

/-- `ptFresh` after one epoch with validation whose metric value 1
improves on the initial best 10. -/
def ptFreshAfter : ProgressTracker :=
  { ptFresh with
      epoch := 1
      vali_metrics := exValiLog
      last_improvement_epoch := 1
      best_eval_metric := 1
      last_improvement := 0 }

/-- `ptEx` after one non-firing call of `increase_batch_size` (no
improvement, patience not yet reached): only the controller's
no-improvement counter advances. -/
def ptExInc : ProgressTracker :=
  { ptEx with last_increase_batch_size_eval_metric_improvement := 1 }

/-- `ptEx` with the learning-rate trigger budget already exhausted
(`num_reductions_learning_rate = 1`). -/
def ptExMaxed : ProgressTracker := { ptEx with num_reductions_learning_rate := 1 }

/-- C5: For every ProgressTracker value, including ones whose three metric
logs contain zero, one, or many recorded epochs per (target, metric) key,
`ProgressTracker.load` after `ProgressTracker.save` yields a tracker equal
to the original: the persisted snapshot is a lossless round-trip. -/
theorem progress_tracker_save_load_roundtrip (t : ProgressTracker) :
    ProgressTracker.load t.save = some t := by
  cases t
  rfl

/-- Helper: `reduce_learning_rate` never changes `epoch`,
`last_improvement` or `last_improvement_epoch` (it only touches the
fields of its own controller). -/
theorem reduce_learning_rate_frame (impFun : String → ℚ → ℚ → Bool)
    (pt : ProgressTracker) (f : String) (plateau : ℚ) (patience : ℤ) (rate : ℚ)
    (metric split : String) (q : ProgressTracker)
    (h : reduce_learning_rate impFun pt f plateau patience rate metric split = some q) :
    q.epoch = pt.epoch ∧ q.last_improvement = pt.last_improvement ∧
      q.last_improvement_epoch = pt.last_improvement_epoch := by
  unfold reduce_learning_rate at h
  split at h
  · split at h
    · exact Option.noConfusion h
    · split at h
      · cases h
        simp
      · dsimp only at h
        split at h
        · cases h
          simp
        · cases h
          simp
  · cases h
    exact ⟨rfl, rfl, rfl⟩

/-- Helper: `increase_batch_size` never changes `epoch`,
`last_improvement` or `last_improvement_epoch`. -/
theorem increase_batch_size_frame (impFun : String → ℚ → ℚ → Bool)
    (pt : ProgressTracker) (f : String) (plateau patience : ℤ) (rate : ℚ)
    (maxBS : ℤ) (metric split : String) (q : ProgressTracker)
    (h : increase_batch_size impFun pt f plateau patience rate maxBS metric split = some q) :
    q.epoch = pt.epoch ∧ q.last_improvement = pt.last_improvement ∧
      q.last_improvement_epoch = pt.last_improvement_epoch := by
  unfold increase_batch_size at h
  split at h
  · split at h
    · exact Option.noConfusion h
    · split at h
      · cases h
        simp
      · dsimp only at h
        split at h
        · cases h
          simp
        · cases h
          simp
  · cases h
    exact ⟨rfl, rfl, rfl⟩

/-- C1 (amended): for every tracker and configuration,
`check_progress_on_validation` returns `should_break = true` exactly when
`0 < early_stop` AND the recomputed `last_improvement` has reached
`early_stop` — so `early_stop ≤ 0` (not only `< 0`) disables early
stopping; and in the concrete scenario `early_stop = 3` with a validation
loss that improves on the first epoch and never afterwards, the epoch
loop stops exactly when `last_improvement` reaches 3, after the fourth
recorded epoch, well before the epoch budget of 10. -/
theorem early_stop_break_characterization :
    (∀ (impFun : String → ℚ → ℚ → Bool) (pt : ProgressTracker) (vf vm : String)
        (rlrP : ℚ) (rlrPat : ℤ) (rlrRate : ℚ) (rlrM rlrS : String)
        (ibsP ibsPat : ℤ) (ibsRate : ℚ) (ibsMax : ℤ) (ibsM ibsS : String)
        (es : ℤ) (pt' : ProgressTracker) (b : Bool),
      check_progress_on_validation impFun pt vf vm rlrP rlrPat rlrRate rlrM rlrS
          ibsP ibsPat ibsRate ibsMax ibsM ibsS es = some (pt', b) →
        (b = true ↔ 0 < es ∧ es ≤ pt'.last_improvement)) ∧
    (trainValLoop impLt COMBINED LOSS 0 0 0 LOSS tTRAINING 0 0 0 0 LOSS tTRAINING 3
        (List.replicate 10 1) ptFresh).map (fun t => (t.epoch, t.last_improvement)) =
      some (4, 3) := by
  constructor
  · intro impFun pt vf vm rlrP rlrPat rlrRate rlrM rlrS ibsP ibsPat ibsRate ibsMax
      ibsM ibsS es pt' b h
    unfold check_progress_on_validation at h
    split at h
    · exact absurd h (by simp)
    · split at h
      · exact absurd h (by simp)
      · split at h
        · exact absurd h (by simp)
        · cases h
          simp
  · decide

/-- Witness for C1: the characterization applied to the concrete tracker
`ptEx` (no improvement, recomputed `last_improvement = 1`) with
`early_stop = 3`. -/
theorem early_stop_break_characterization_witness :
    (false = true) ↔ (0 < (3 : ℤ) ∧ 3 ≤ ptEx'.last_improvement) :=
  early_stop_break_characterization.1 impLt ptEx COMBINED LOSS 0 0 0 LOSS tTRAINING
    0 0 0 0 LOSS tTRAINING 3 ptEx' false (by decide)

/-- C1 counterexample: `early_stop = 0` satisfies the claim's premise
`early_stop ≥ 0`, and on the tracker `ptEx` the recomputed
`last_improvement` is 1, which has reached `early_stop`; the claim
therefore demands `should_break = true`, but the code tests
`0 < early_stop <= last_improvement` and returns `false` — with
`early_stop = 0` early stopping never terminates the loop. -/
theorem early_stop_zero_never_breaks :
    (check_progress_on_validation impLt ptEx COMBINED LOSS 0 0 0 LOSS tTRAINING 0 0 0 0
        LOSS tTRAINING 0).map (fun pb => (pb.1.last_improvement, pb.2)) =
      some (1, false) ∧
    ¬((false = true) ↔ ((0 : ℤ) ≤ 1)) := by
  constructor
  · decide
  · decide

/-- Helper: the `reduceStage` block of `check_progress_on_validation`
never changes `epoch`, `last_improvement` or `last_improvement_epoch`. -/
theorem reduceStage_frame (impFun : String → ℚ → ℚ → Bool)
    (pt : ProgressTracker) (f : String) (plateau : ℚ) (patience : ℤ) (rate : ℚ)
    (metric split : String) (q : ProgressTracker)
    (h : reduceStage impFun pt f plateau patience rate metric split = some q) :
    q.epoch = pt.epoch ∧ q.last_improvement = pt.last_improvement ∧
      q.last_improvement_epoch = pt.last_improvement_epoch := by
  unfold reduceStage at h
  split at h
  · split at h
    · exact absurd h (by simp)
    · rename_i q' hq'
      cases h
      have := reduce_learning_rate_frame _ _ _ _ _ _ _ _ _ hq'
      simpa using this
  · cases h
    exact ⟨rfl, rfl, rfl⟩

/-- Helper: the `increaseStage` block of `check_progress_on_validation`
never changes `epoch`, `last_improvement` or `last_improvement_epoch`. -/
theorem increaseStage_frame (impFun : String → ℚ → ℚ → Bool)
    (pt : ProgressTracker) (f : String) (plateau patience : ℤ) (rate : ℚ)
    (maxBS : ℤ) (metric split : String) (q : ProgressTracker)
    (h : increaseStage impFun pt f plateau patience rate maxBS metric split = some q) :
    q.epoch = pt.epoch ∧ q.last_improvement = pt.last_improvement ∧
      q.last_improvement_epoch = pt.last_improvement_epoch := by
  unfold increaseStage at h
  split at h
  · split at h
    · exact absurd h (by simp)
    · rename_i q' hq'
      cases h
      have := increase_batch_size_frame _ _ _ _ _ _ _ _ _ _ hq'
      simpa using this
  · cases h
    exact ⟨rfl, rfl, rfl⟩

/-- Helper: the tracker returned by `check_progress_on_validation`
satisfies `last_improvement = epoch - last_improvement_epoch`: the field
is recomputed at line 1122 and the plateau controllers do not touch it. -/
theorem check_progress_last_improvement
    (impFun : String → ℚ → ℚ → Bool) (pt : ProgressTracker) (vf vm : String)
    (rlrP : ℚ) (rlrPat : ℤ) (rlrRate : ℚ) (rlrM rlrS : String)
    (ibsP ibsPat : ℤ) (ibsRate : ℚ) (ibsMax : ℤ) (ibsM ibsS : String)
    (es : ℤ) (pt' : ProgressTracker) (b : Bool)
    (h : check_progress_on_validation impFun pt vf vm rlrP rlrPat rlrRate rlrM rlrS
        ibsP ibsPat ibsRate ibsMax ibsM ibsS es = some (pt', b)) :
    pt'.last_improvement = pt'.epoch - pt'.last_improvement_epoch := by
  unfold check_progress_on_validation at h
  split at h
  · exact absurd h (by simp)
  · rename_i lastVal hlast
    split at h
    · exact absurd h (by simp)
    · rename_i pt3 hpt3
      split at h
      · exact absurd h (by simp)
      · rename_i pt4 hpt4
        cases h
        obtain ⟨he3, hi3, hl3⟩ := reduceStage_frame _ _ _ _ _ _ _ _ _ hpt3
        obtain ⟨he4, hi4, hl4⟩ := increaseStage_frame _ _ _ _ _ _ _ _ _ _ hpt4
        rw [hi4, he4, hl4, hi3, he3, hl3]
        simp [recomputeLastImprovement]

/-- C9 (amended): after every epoch iteration in which a validation set
is present (so `check_progress_on_validation` runs), the tracker
satisfies `last_improvement = epoch - last_improvement_epoch`: the field
is recomputed from the two others on every such epoch.  (Without a
validation set the field is not recomputed — see the counterexample.) -/
theorem last_improvement_recomputed_with_validation
    (impFun : String → ℚ → ℚ → Bool) (pt : ProgressTracker) (vf vm : String)
    (metricVal : ℚ) (rlrP : ℚ) (rlrPat : ℤ) (rlrRate : ℚ) (rlrM rlrS : String)
    (ibsP ibsPat : ℤ) (ibsRate : ℚ) (ibsMax : ℤ) (ibsM ibsS : String)
    (es : ℤ) (pt' : ProgressTracker) (b : Bool)
    (h : valTrainStep impFun pt vf vm metricVal rlrP rlrPat rlrRate rlrM rlrS
        ibsP ibsPat ibsRate ibsMax ibsM ibsS es = some (pt', b)) :
    pt'.last_improvement = pt'.epoch - pt'.last_improvement_epoch := by
  unfold valTrainStep at h
  exact check_progress_last_improvement _ _ _ _ _ _ _ _ _ _ _ _ _ _ _ _ _ _ h

/-- Witness for C9: one epoch with validation from the fresh tracker; the
resulting tracker `ptFreshAfter` satisfies the recomputation equation. -/
theorem last_improvement_recomputed_with_validation_witness :
    ptFreshAfter.last_improvement = ptFreshAfter.epoch - ptFreshAfter.last_improvement_epoch :=
  last_improvement_recomputed_with_validation impLt ptFresh COMBINED LOSS 1 0 0 0 LOSS
    tTRAINING 0 0 0 0 LOSS tTRAINING 5 ptFreshAfter false (by decide)

/-- C9 counterexample: one epoch of the training loop WITHOUT a
validation set (the claim asserts the invariant "with or without a
validation set").  `check_progress_on_validation` is not called, so
`last_improvement` keeps its initial value 0 while `epoch` advances to 1
and `epoch - last_improvement_epoch = 1`: the claimed invariant fails. -/
theorem last_improvement_drifts_without_validation :
    ¬((trainEpochNoValidation 5 ptFresh).last_improvement =
        (trainEpochNoValidation 5 ptFresh).epoch -
          (trainEpochNoValidation 5 ptFresh).last_improvement_epoch) := by
  decide

/-- C7: on every exit path of `tune_batch_size` — normal return, trial or
halving budget exhaustion, and any exception escaping a trial step — the
trainer's three side-effect flags `skip_save_model`, `skip_save_progress`
and `skip_save_log` have, after the call, exactly the values they had
before the call: they are forced to `True` only for the duration of the
search and restored in the `finally` block. -/
theorem tune_batch_size_restores_save_flags (trial : ℕ → TrialResult)
    (dsLen maxTrials halvingLimit : ℕ) (flags : SaveFlags) :
    (tune_batch_size trial dsLen maxTrials halvingLimit flags).2 = flags := by
  rfl

/-- C3 (code behaviour at the claimed scenario): with a trial that
succeeds for every batch size up to 500 and raises out-of-memory above
500, a dataset of 10000 rows, and the default budgets
`max_trials = 10`, `halving_limit = 3`, the doubling phase visits
128, 256, 512; the trial at 512 fails, but because `low` was already set
to 512 at the top of the iteration, the bisection window is `[512, 512]`
and the tuner returns 512 — the size that just failed — instead of a
value in the claimed interval [256, 500]. -/
theorem tune_batch_size_returns_oom_size :
    (tune_batch_size (fun bs => if bs ≤ 500 then .success else .oomFailure) 10000 10 3
        { skip_save_model := false, skip_save_progress := false, skip_save_log := false }).1 =
      .result 512 ∧ ¬(512 ≤ 500) := by
  constructor
  · decide
  · decide

/-- C4 (code behaviour at a violating input): on a training set of 5
examples with a trial that always raises out-of-memory, the very first
iteration fails, the bisection window is `[128, 128]`, and the loop
breaks inside the `except` branch BEFORE the dataset-size clamp runs:
`tune_batch_size` returns 128, which exceeds the dataset size 5. -/
theorem tune_batch_size_exceeds_dataset_size :
    (tune_batch_size (fun _ => .oomFailure) 5 10 3
        { skip_save_model := false, skip_save_progress := false, skip_save_log := false }).1 =
      .result 128 ∧ ¬((128 : ℕ) ≤ 5) := by
  constructor
  · decide
  · decide

/-- C10: if the configured learning rate is the non-numeric sentinel
`auto` (the only string the schema admits), trainer construction does not
fail: `float` raises `ValueError`, the exception is caught, and the base
learning rate silently falls back to 0.001; the fresh ProgressTracker
built at the start of training then carries that fallback rate, so
training uses it unless `tune_learning_rate` runs first.  A numeric
configuration value is used unchanged. -/
theorem auto_learning_rate_fallback :
    trainerBaseLearningRate NumericOrAuto.auto = 1 / 1000 ∧
    (∀ (getInitial : String → ℚ) (bs : ℚ) (vm rm im : String) (tm vl ts : MetricsLog),
      (init_progress_tracker getInitial bs (trainerBaseLearningRate NumericOrAuto.auto)
          vm rm im tm vl ts).learning_rate = 1 / 1000) ∧
    (∀ q : ℚ, trainerBaseLearningRate (NumericOrAuto.num q) = q) := by
  refine ⟨rfl, fun _ _ _ _ _ _ _ _ => rfl, fun _ => rfl⟩

/-- C8: whenever `increase_batch_size` is called on a tracker whose
`batch_size` is at most `increase_batch_size_on_plateau_max` and whose
trigger count is at most `increase_batch_size_on_plateau`, both bounds
still hold after the call (when the controller fires, the new batch size
is `min(rate * old, max)`), so the batch size never exceeds the
configured maximum and the trigger count never exceeds the configured
number of triggers. -/
theorem increase_batch_size_bounded (impFun : String → ℚ → ℚ → Bool)
    (pt : ProgressTracker) (f : String) (plateau patience : ℤ) (rate : ℚ)
    (maxBS : ℤ) (metric split : String) (pt' : ProgressTracker)
    (hbs : pt.batch_size ≤ (maxBS : ℚ))
    (hnum : pt.num_increases_batch_size ≤ plateau)
    (h : increase_batch_size impFun pt f plateau patience rate maxBS metric split =
      some pt') :
    pt'.batch_size ≤ (maxBS : ℚ) ∧ pt'.num_increases_batch_size ≤ plateau ∧
      (pt'.batch_size ≠ pt.batch_size →
        pt'.batch_size = min (rate * pt.batch_size) (maxBS : ℚ)) := by
  unfold increase_batch_size at h
  split at h
  · rename_i hgate
    split at h
    · exact Option.noConfusion h
    · split at h
      · cases h
        exact ⟨hbs, hnum, fun hne => absurd rfl hne⟩
      · dsimp only at h
        split at h
        · cases h
          refine ⟨min_le_right _ _, ?_, fun _ => rfl⟩
          simp only []
          omega
        · cases h
          exact ⟨hbs, hnum, fun hne => absurd rfl hne⟩
  · cases h
    exact ⟨hbs, hnum, fun hne => absurd rfl hne⟩

/-- Witness for C8: a concrete non-firing call (no improvement, patience
not reached) on `ptEx` with `max = 512`, `plateau = 1`, `rate = 2`. -/
theorem increase_batch_size_bounded_witness :
    ptExInc.batch_size ≤ ((512 : ℤ) : ℚ) ∧ ptExInc.num_increases_batch_size ≤ 1 ∧
      (ptExInc.batch_size ≠ ptEx.batch_size →
        ptExInc.batch_size = min (2 * ptEx.batch_size) ((512 : ℤ) : ℚ)) :=
  increase_batch_size_bounded impLt ptEx COMBINED 1 5 2 512 LOSS tTRAINING ptExInc
    (by decide) (by decide) (by decide)

/-- C6: for every invalid `validation_field` / `validation_metric`
combination — the field neither `combined` nor an output feature name,
or the metric not among the metrics available for the resolved field —
`Trainer.train` raises a `ValueError` whose message names the offending
value, before any training side effect (the error propagates out of the
validation gate, so no save directory, checkpoint or epoch loop side
effect is produced), never a silent no-op. -/
theorem invalid_validation_config_fails_before_side_effects
    (output_features : List (String × List String)) (vf vm : String)
    (hinvalid :
      (vf ≠ COMBINED ∧ ∀ f ∈ output_features, f.1 ≠ vf) ∨
      (∃ r ms, resolveValidationField output_features vf vm = Except.ok r ∧
        dictGet (get_metrics_names output_features) r = some ms ∧ vm ∉ ms)) :
    ∃ e, trainValidationGate output_features vf vm = Except.error e ∧
      ((∃ s t, e = s ++ vf ++ t) ∨ (∃ s t, e = s ++ vm ++ t)) := by
  rcases hinvalid with ⟨hne, hnotin⟩ | ⟨r, ms, hres, hlook, hnotin⟩
  · have hany : output_features.any (fun f => f.1 = vf) = false := by
      simp only [List.any_eq_false, decide_eq_true_eq]
      exact fun f hf => hnotin f hf
    have hval : validateValidationConfig output_features vf vm =
        Except.error ("The specified validation_field " ++ vf ++
          (" is not valid. Available ones are: " ++
          String.intercalate ", " (output_features.map (fun f => f.1) ++ [COMBINED]))) := by
      unfold validateValidationConfig resolveValidationField
      rw [if_neg hne]
      simp [hany]
    refine ⟨_, ?_, Or.inl ⟨"The specified validation_field ",
      " is not valid. Available ones are: " ++
        String.intercalate ", " (output_features.map (fun f => f.1) ++ [COMBINED]), rfl⟩⟩
    unfold trainValidationGate
    rw [hval]
  · have hval : validateValidationConfig output_features vf vm =
        Except.error ("The specified metric " ++ vm ++
          (" is not valid. Available metrics for " ++ r ++
          (" output feature are: " ++ String.intercalate ", " ms))) := by
      unfold validateValidationConfig
      rw [hres]
      dsimp only
      rw [hlook]
      dsimp only
      rw [if_neg hnotin]
    refine ⟨_, ?_, Or.inr ⟨"The specified metric ",
      " is not valid. Available metrics for " ++ r ++
        (" output feature are: " ++ String.intercalate ", " ms), rfl⟩⟩
    unfold trainValidationGate
    rw [hval]

/-- Helper: `appendMetric` on the single-entry scenario log appends the
value to the recorded sequence. -/
theorem appendMetric_scenario (xs : List ℚ) (v : ℚ) :
    appendMetric [(COMBINED, [(LOSS, xs)])] COMBINED LOSS v =
      [(COMBINED, [(LOSS, xs ++ [v])])] := by
  simp [appendMetric]

/-- Helper: the most recent value of the single-entry scenario log. -/
theorem lastMetric_concat (xs : List ℚ) (v : ℚ) :
    lastMetric [(COMBINED, [(LOSS, xs ++ [v])])] COMBINED LOSS = some v := by
  simp [lastMetric, dictGet]

/-- Helper: one call of `reduce_learning_rate` (training split) that sees
no improvement and whose patience condition fails only advances the
controller's no-improvement counter. -/
theorem reduce_learning_rate_no_fire (impFun : String → ℚ → ℚ → Bool)
    (pt : ProgressTracker) (f : String) (plateau : ℚ) (patience : ℤ) (rate : ℚ)
    (metric : String) (v : ℚ)
    (hgate : ¬((pt.num_reductions_learning_rate : ℚ) ≥ plateau))
    (hlast : lastMetric pt.train_metrics f metric = some v)
    (him : impFun metric v pt.best_reduce_learning_rate_eval_metric = false)
    (hnof : ¬(pt.last_learning_rate_reduction ≥ patience ∧
        pt.last_reduce_learning_rate_eval_metric_improvement + 1 ≥ patience)) :
    reduce_learning_rate impFun pt f plateau patience rate metric tTRAINING =
      some { pt with
               last_reduce_learning_rate_eval_metric_improvement :=
                 pt.last_reduce_learning_rate_eval_metric_improvement + 1 } := by
  simp [reduce_learning_rate, selectSplitMetrics, hgate, hlast, him, hnof]

/-- Helper: one call of `reduce_learning_rate` (training split) that sees
no improvement with both patience conditions met and budget available
fires: the learning rate is multiplied by `rate` and the trigger count
incremented. -/
theorem reduce_learning_rate_fire (impFun : String → ℚ → ℚ → Bool)
    (pt : ProgressTracker) (f : String) (plateau : ℚ) (patience : ℤ) (rate : ℚ)
    (metric : String) (v : ℚ)
    (hgate : ¬((pt.num_reductions_learning_rate : ℚ) ≥ plateau))
    (hlast : lastMetric pt.train_metrics f metric = some v)
    (him : impFun metric v pt.best_reduce_learning_rate_eval_metric = false)
    (hf : pt.last_learning_rate_reduction ≥ patience ∧
        pt.last_reduce_learning_rate_eval_metric_improvement + 1 ≥ patience) :
    reduce_learning_rate impFun pt f plateau patience rate metric tTRAINING =
      some { pt with
               last_reduce_learning_rate_eval_metric_improvement :=
                 pt.last_reduce_learning_rate_eval_metric_improvement + 1
               learning_rate := pt.learning_rate * rate
               last_learning_rate_reduction_epoch := pt.epoch
               last_learning_rate_reduction := 0
               num_reductions_learning_rate := pt.num_reductions_learning_rate + 1 } := by
  simp [reduce_learning_rate, selectSplitMetrics, hgate, hlast, him, hf.1, hf.2]

/-- Helper: one no-improvement epoch of the plateau scenario before the
patience threshold only advances the counters. -/
theorem reduce_scenario_step_no_fire (p k : ℕ) (hk : k < p) (rate lr0 b m : ℚ)
    (impFun : String → ℚ → ℚ → Bool) (him : impFun LOSS m b = false) :
    reduceEpochStep impFun COMBINED LOSS tTRAINING 1 (p : ℤ) rate m
        (reduceScenarioState lr0 b m k) =
      some (reduceScenarioState lr0 b m (k + 1)) := by
  unfold reduceEpochStep
  rw [show ({ reduceScenarioState lr0 b m k with
        epoch := (reduceScenarioState lr0 b m k).epoch + 1
        train_metrics :=
          appendMetric (reduceScenarioState lr0 b m k).train_metrics COMBINED LOSS m } :
        ProgressTracker) =
      { reduceScenarioState lr0 b m k with
          epoch := (k : ℤ) + 1
          train_metrics := [(COMBINED, [(LOSS, List.replicate k m ++ [m])])] } by
    simp [reduceScenarioState, appendMetric_scenario]]
  dsimp only
  rw [reduce_learning_rate_no_fire impFun _ COMBINED 1 (p : ℤ) rate LOSS m
    (by simp [reduceScenarioState])
    (by exact lastMetric_concat _ _)
    (by simpa [reduceScenarioState] using him)
    (by simp only [reduceScenarioState]; intro hc; omega)]
  simp only [Option.some.injEq]
  simp [reduceScenarioState, ProgressTracker.mk.injEq, List.replicate_succ']

/-- Helper: the tracker after `k` no-improvement epochs of the plateau
scenario (`k ≤ patience`). -/
theorem reduce_scenario_run (p : ℕ) (rate lr0 b m : ℚ)
    (impFun : String → ℚ → ℚ → Bool) (him : impFun LOSS m b = false) :
    ∀ k, k ≤ p →
      reduceEpochRun impFun COMBINED LOSS tTRAINING 1 (p : ℤ) rate m k
          (reduceScenarioState lr0 b m 0) =
        some (reduceScenarioState lr0 b m k) := by
  intro k
  induction k with
  | zero => intro _; rfl
  | succ n ih =>
    intro hn
    unfold reduceEpochRun
    rw [ih (by omega)]
    exact reduce_scenario_step_no_fire p n (by omega) rate lr0 b m impFun him

/-- C2: (1) on a metric log with no improvement for `patience + 1`
consecutive epochs under `reduce_learning_rate_on_plateau = 1`, the
stored learning rate is multiplied by `rate` exactly once over the
sequence and `num_reductions_learning_rate` becomes 1; (2) once the
trigger count has reached the configured maximum, a call leaves the
tracker — in particular the learning rate — unchanged; (3) a call
changes the learning rate only when the trigger budget is available and
both the epochs-since-last-reduction counter and the (incremented)
no-improvement counter have reached the patience threshold, and then it
multiplies it by `rate` exactly once, incrementing the trigger count. -/
theorem reduce_lr_plateau_fires_exactly_once :
    (∀ (p : ℕ) (rate lr0 b m : ℚ) (impFun : String → ℚ → ℚ → Bool),
      impFun LOSS m b = false →
      (reduceEpochRun impFun COMBINED LOSS tTRAINING 1 (p : ℤ) rate m (p + 1)
          (reduceScenarioState lr0 b m 0)).map
        (fun t => (t.learning_rate, t.num_reductions_learning_rate)) =
        some (lr0 * rate, 1)) ∧
    (∀ (impFun : String → ℚ → ℚ → Bool) (pt : ProgressTracker) (f : String)
        (plateau : ℚ) (patience : ℤ) (rate : ℚ) (metric split : String),
      (pt.num_reductions_learning_rate : ℚ) ≥ plateau →
      reduce_learning_rate impFun pt f plateau patience rate metric split = some pt) ∧
    (∀ (impFun : String → ℚ → ℚ → Bool) (pt : ProgressTracker) (f : String)
        (plateau : ℚ) (patience : ℤ) (rate : ℚ) (metric split : String)
        (pt' : ProgressTracker),
      reduce_learning_rate impFun pt f plateau patience rate metric split = some pt' →
      pt'.learning_rate ≠ pt.learning_rate →
      ((pt.num_reductions_learning_rate : ℚ) < plateau ∧
       pt.last_learning_rate_reduction ≥ patience ∧
       pt.last_reduce_learning_rate_eval_metric_improvement + 1 ≥ patience ∧
       pt'.learning_rate = pt.learning_rate * rate ∧
       pt'.num_reductions_learning_rate = pt.num_reductions_learning_rate + 1)) := by
  refine ⟨?_, ?_, ?_⟩
  · intro p rate lr0 b m impFun him
    unfold reduceEpochRun
    rw [reduce_scenario_run p rate lr0 b m impFun him p le_rfl]
    unfold reduceEpochStep
    dsimp only
    rw [show ({ reduceScenarioState lr0 b m p with
          epoch := (reduceScenarioState lr0 b m p).epoch + 1
          train_metrics :=
            appendMetric (reduceScenarioState lr0 b m p).train_metrics COMBINED LOSS m } :
          ProgressTracker) =
        { reduceScenarioState lr0 b m p with
            epoch := (p : ℤ) + 1
            train_metrics := [(COMBINED, [(LOSS, List.replicate p m ++ [m])])] } by
      simp [reduceScenarioState, appendMetric_scenario]]
    dsimp only
    rw [reduce_learning_rate_fire impFun _ COMBINED 1 (p : ℤ) rate LOSS m
      (by simp [reduceScenarioState])
      (by exact lastMetric_concat _ _)
      (by simpa [reduceScenarioState] using him)
      (by simp only [reduceScenarioState]; omega)]
    simp [reduceScenarioState]
  · intro impFun pt f plateau patience rate metric split hge
    unfold reduce_learning_rate
    rw [if_neg (not_not_intro hge)]
  · intro impFun pt f plateau patience rate metric split pt' h hne
    unfold reduce_learning_rate at h
    split at h
    · rename_i hgate
      split at h
      · exact Option.noConfusion h
      · split at h
        · cases h
          exact absurd rfl hne
        · dsimp only at h
          split at h
          · rename_i hf
            cases h
            exact ⟨lt_of_not_ge hgate, hf.1, hf.2, rfl, rfl⟩
          · cases h
            exact absurd rfl hne
    · cases h
      exact absurd rfl hne

/-- Witness for C2: the plateau scenario at `patience = 0`, `rate = 2`,
initial learning rate 3, no improvement (value 5 against best 0 under
lower-is-better): one epoch multiplies the rate by 2 exactly once and the
trigger count becomes 1; and a call with the budget exhausted
(`num_reductions_learning_rate = 1 ≥ plateau = 1`) leaves the tracker
unchanged. -/
theorem reduce_lr_plateau_fires_exactly_once_witness :
    ((reduceEpochRun impLt COMBINED LOSS tTRAINING 1 ((0 : ℕ) : ℤ) 2 5 (0 + 1)
        (reduceScenarioState 3 0 5 0)).map
      (fun t => (t.learning_rate, t.num_reductions_learning_rate)) = some (3 * 2, 1)) ∧
    reduce_learning_rate impLt ptExMaxed COMBINED 1 5 2 LOSS tTRAINING = some ptExMaxed :=
  ⟨reduce_lr_plateau_fires_exactly_once.1 0 2 3 0 5 impLt (by decide),
   reduce_lr_plateau_fires_exactly_once.2.1 impLt ptExMaxed COMBINED 1 5 2 LOSS tTRAINING
     (by norm_num [ptExMaxed, ptEx])⟩

/-- Witness for C6: the model has one output feature `f1` with metric
`loss`; the requested validation field `bogus` matches neither
`combined` nor an output feature, and `train`'s validation gate raises
an error naming it with no side effect produced. -/
theorem invalid_validation_config_fails_before_side_effects_witness :
    ∃ e, trainValidationGate [("f1", ["loss"])] "bogus" "loss" = Except.error e ∧
      ((∃ s t, e = s ++ "bogus" ++ t) ∨ (∃ s t, e = s ++ "loss" ++ t)) :=
  invalid_validation_config_fails_before_side_effects [("f1", ["loss"])] "bogus" "loss"
    (Or.inl (by decide))

end Ludwig
